import Mathlib

/-!
Verification of the frame acquisition and dispatch pipeline of the
groundlight/stream repository, as a shallow embedding in Lean 4.

Times and pixel fractions are modelled as exact rationals (`ℚ`).  The Python
source computes with IEEE doubles; on every concrete input used below the
float computation and the exact rational computation agree (all compared
quantities are far from the decision boundaries relative to double
precision), so the rational model is faithful for the claims settled here.
-/

namespace Stream

/-! ## Motion gate (src/stream/main.py, run_capture_loop lines 143-163)

The loop keeps `motion_start` (time of last detected motion) and
`last_frame_time` (time the last frame was enqueued).  Each cycle with a
motion detector configured evaluates, in order:

  if motion_detector.motion_detected(frame): motion_start = now   (accept)
  elif now - motion_start < post_motion_time:                     (accept)
  elif now - last_frame_time > max_frame_interval:                (accept)
  else: add_frame_to_queue = False                                (reject)

and on accept enqueues the frame and sets `last_frame_time = now`.
The Python source reads `time.time()` several times within one cycle; the
embedding idealises them as a single instant `now`, which is how the spec
speaks about a cycle. -/

structure GateState where
  motionStart : ℚ
  lastFrameTime : ℚ
  deriving Repr, DecidableEq

/-- One motion-gated cycle of `run_capture_loop`: given the configured
`post_motion_time` and `max_frame_interval`, the current state, the cycle
instant `now` and the detector's verdict `motionNow` on the (possibly
cropped) frame, return whether the frame is enqueued together with the
updated state. -/
def gateStep (post_motion_time max_frame_interval : ℚ) (s : GateState)
    (now : ℚ) (motionNow : Bool) : Bool × GateState :=
  let time_since_motion := now - s.motionStart
  let time_since_last_frame := now - s.lastFrameTime
  let accept : Bool :=
    if motionNow then true
    else if time_since_motion < post_motion_time then true
    else if time_since_last_frame > max_frame_interval then true
    else false
  let motionStart' := if motionNow then now else s.motionStart
  let lastFrameTime' := if accept then now else s.lastFrameTime
  (accept, ⟨motionStart', lastFrameTime'⟩)

/-! ## File-stream frame decimation (src/stream/grabber.py, FileStreamFrameGrabber)

`__init__` stores `fps_source` (the container's reported rate rounded to two
decimals), `fps_target`, and `remainder = 0.0`.  `grab` runs

  if fps_target > 0 and fps_target < fps_source:
      drop_frames = fps_source / fps_target - 1 + remainder
      for i in range(round(drop_frames)): capture.read()
      remainder = round(drop_frames - round(drop_frames), 2)
  capture.read()   # the returned frame

so each grab consumes `round(drop_frames) + 1` frames of the file.
Python's `round` rounds half to even; `round(x, 2)` rounds to the nearest
hundredth. -/

/-- Python `round(q)`: nearest integer, ties to even. -/
def pyRound (q : ℚ) : ℤ :=
  if q - ⌊q⌋ < 1/2 then ⌊q⌋
  else if q - ⌊q⌋ > 1/2 then ⌊q⌋ + 1
  else if ⌊q⌋ % 2 = 0 then ⌊q⌋ else ⌊q⌋ + 1

/-- Python `round(q, 2)`: nearest multiple of 1/100, ties to even. -/
def roundTo2 (q : ℚ) : ℚ := (pyRound (100 * q) : ℚ) / 100

structure FileGrabberState where
  fps_source : ℚ
  fps_target : ℚ
  remainder : ℚ
  deriving Repr, DecidableEq

/-- `FileStreamFrameGrabber.__init__` with a source rate and a target rate:
remainder starts at 0. -/
def fileGrabberInit (fps_source fps_target : ℚ) : FileGrabberState :=
  ⟨fps_source, fps_target, 0⟩

/-- One `FileStreamFrameGrabber.grab()`: returns the number of frames of the
underlying file consumed by this call (dropped frames plus the returned one)
and the updated state. -/
def fileGrab (s : FileGrabberState) : ℕ × FileGrabberState :=
  if s.fps_target > 0 ∧ s.fps_target < s.fps_source then
    let drop_frames := s.fps_source / s.fps_target - 1 + s.remainder
    let n := pyRound drop_frames
    (n.toNat + 1, { s with remainder := roundTo2 (drop_frames - n) })
  else
    (1, s)

/-- State after `k` consecutive `grab()` calls. -/
def fileGrabIter (s : FileGrabberState) : ℕ → FileGrabberState
  | 0 => s
  | k + 1 => (fileGrab (fileGrabIter s k)).2

/-- Total number of file frames consumed by `k` consecutive `grab()` calls
(the sum of the per-grab spacings between accepted frames). -/
def fileGrabTotal (s : FileGrabberState) : ℕ → ℕ
  | 0 => 0
  | k + 1 => fileGrabTotal s k + (fileGrab (fileGrabIter s k)).1

/-! ## Frames and image processing (src/stream/image_processing.py)

A frame is a numpy/OpenCV array; the claims only concern its shape, the list
of its dimensions `(height, width, channels)` for colour images or
`(height, width)` for grayscale.  Python tuple destructuring
`(a, b, c) = frame.shape` raises `ValueError` unless the shape has exactly
three entries; that failure is modelled as `Except.error`. -/

structure Frame where
  shape : List ℕ
  deriving Repr, DecidableEq

/-- Python `int(q)` on a float: truncation toward zero. -/
def pyInt (q : ℚ) : ℤ := if 0 ≤ q then ⌊q⌋ else -⌊-q⌋

/-- Length of the numpy slice `a:b` over an axis of size `n`, for
non-negative slice bounds (the only bounds the source produces). -/
def sliceLen (a b : ℤ) (n : ℕ) : ℕ := ((min b n) - (min a n)).toNat

/-- `crop_frame(frame, crop_region)` from src/stream/image_processing.py:

    (img_height, img_width, _) = frame.shape
    x1 = int(img_width * crop_region[0]);  y1 = int(img_height * crop_region[1])
    x2 = x1 + int(img_width * crop_region[2]);  y2 = y1 + int(img_height * crop_region[3])
    out = frame[y1:y2, x1:x2, :]

The destructuring raises unless the frame has exactly 3 dimensions. -/
def crop_frame (frame : Frame) (crop_region : ℚ × ℚ × ℚ × ℚ) : Except String Frame :=
  match frame.shape with
  | [img_height, img_width, c] =>
    let x1 := pyInt (img_width * crop_region.1)
    let y1 := pyInt (img_height * crop_region.2.1)
    let x2 := x1 + pyInt (img_width * crop_region.2.2.1)
    let y2 := y1 + pyInt (img_height * crop_region.2.2.2)
    .ok ⟨[sliceLen y1 y2 img_height, sliceLen x1 x2 img_width, c]⟩
  | _ => .error "ValueError: not enough values to unpack"

/-- `resize_if_needed(frame, width, height)` from src/stream/image_processing.py:

    if (width == 0) & (height == 0): return frame
    image_height, image_width, _ = frame.shape
    target_width  = width  if width > 0  else int(image_width * height / image_height)
    target_height = height if height > 0 else int(image_height * width / image_width)
    return cv2.resize(frame, dsize=(target_width, target_height))

`cv2.resize` returns a frame of shape `(target_height, target_width, c)`.
The claims only use frames with positive dimensions, so the rational
divisions below are never by zero. -/
def resize_if_needed (frame : Frame) (width height : ℤ) : Except String Frame :=
  if width = 0 ∧ height = 0 then .ok frame
  else
    match frame.shape with
    | [image_height, image_width, c] =>
      let target_width :=
        if width > 0 then width
        else pyInt ((image_width : ℚ) * ((height : ℚ) / (image_height : ℚ)))
      let target_height :=
        if height > 0 then height
        else pyInt ((image_height : ℚ) * ((width : ℚ) / (image_width : ℚ)))
      .ok ⟨[target_height.toNat, target_width.toNat, c]⟩
    | _ => .error "ValueError: not enough values to unpack"

/-- `DirectoryFrameGrabber.grab` (src/stream/grabber.py lines 66-75) reads the
next file with `cv2.imread(filename, cv2.IMREAD_GRAYSCALE)`, which yields a
2-dimensional array of shape `(height, width)` — no channel axis. -/
def directoryGrabFrame (height width : ℕ) : Frame := ⟨[height, width]⟩

/-- `parse_crop_string` (src/stream/image_processing.py lines 62-91), modelled
from the point after Python's `float()` conversion: the input is the list of
parsed numbers (a non-numeric part raises `ValueError` inside `float()`
itself, upheld by the same function).  The validation chain is the source's:

    if len(parts) != 4: raise ValueError(...)
    for n in numbers:
        if (n < 0) or (n > 1): raise ValueError(...)
    if numbers[0] + numbers[2] > 1.0: raise ValueError(...)
    if numbers[1] + numbers[3] > 1.0: raise ValueError(...)
    if numbers[2] * numbers[3] == 0: raise ValueError(...)
    return numbers
-/
def parse_crop_numbers (numbers : List ℚ) : Except String (ℚ × ℚ × ℚ × ℚ) :=
  match numbers with
  | [x, y, w, h] =>
    if x < 0 ∨ x > 1 then .error "All numbers must be between 0 and 1, showing relative position in image"
    else if y < 0 ∨ y > 1 then .error "All numbers must be between 0 and 1, showing relative position in image"
    else if w < 0 ∨ w > 1 then .error "All numbers must be between 0 and 1, showing relative position in image"
    else if h < 0 ∨ h > 1 then .error "All numbers must be between 0 and 1, showing relative position in image"
    else if x + w > 1 then .error "Invalid crop: x+w is greater than 1."
    else if y + h > 1 then .error "Invalid crop: y+h is greater than 1."
    else if w * h = 0 then .error "Width and Height must both be >0"
    else .ok (x, y, w, h)
  | _ => .error "Expected crop to be list of four floating point numbers."

/-! ## Capture-cycle failure handling (src/stream/main.py lines 121-132)

    try:
        frame = grabber.grab()
    except GrabError:
        logger.exception("Error grabbing frame")
        frame = None
    if frame is None:
        logger.warning("No frame captured!")
        time.sleep(0.1)
        continue

Only `GrabError` is caught.  The repository's own grabbers in
src/stream/grabber.py signal a failed read by `raise RuntimeWarning(...)`
(FileStreamFrameGrabber lines 111-113, DeviceFrameGrabber, and
DirectoryFrameGrabber), and RTSPFrameGrabber/ImageURLFrameGrabber return a
`None` frame instead of raising. -/

/-- The possible outcomes of a single `grabber.grab()` call across the
repository's frame-source variants. -/
inductive GrabOutcome where
  | frame (f : Frame)        -- a successful read
  | noneFrame                -- grab returned None (RTSP retrieve failure, image-URL failure)
  | grabError                -- grab raised framegrab.GrabError
  | runtimeWarning           -- grab raised RuntimeWarning (file/device/directory grabbers)
  deriving Repr, DecidableEq

/-- What the capture loop does with one grab outcome. -/
inductive CycleResult where
  | proceed (f : Frame)                       -- continue the cycle with this frame
  | backoffContinue (sleepSecs : ℚ) (loggedFailure : Bool) (enqueued : Bool)
      -- log, sleep the fixed backoff, enqueue nothing, next cycle
  | loopTerminated                            -- the exception escapes run_capture_loop
  deriving Repr, DecidableEq

/-- The grab-and-recover head of a `run_capture_loop` cycle in
src/stream/main.py: `GrabError` is caught and turned into the `None` path;
any other exception propagates out of the loop. -/
def handleGrab (o : GrabOutcome) : CycleResult :=
  match o with
  | .frame f => .proceed f
  | .noneFrame => .backoffContinue (1/10) true false
  | .grabError => .backoffContinue (1/10) true false
  | .runtimeWarning => .loopTerminated

/-! ## Cycle timing (src/stream/main.py lines 113-116 and 165-175)

    desired_delay = 1 / fps if fps > 0 else 0
    ...
    if desired_delay > 0:
        elapsed_time = time.time() - start
        actual_delay = desired_delay - elapsed_time
        if actual_delay < 0:
            logger.warning(f"Cannot maintain {fps} FPS ... (queue size: {queue.qsize()})")
        else:
            time.sleep(actual_delay)
-/

def desired_delay (fps : ℚ) : ℚ := if fps > 0 then 1 / fps else 0

/-- The end-of-cycle timing action. -/
inductive TimingAction where
  | sleepFor (d : ℚ)                    -- time.sleep(actual_delay)
  | warnBackpressure (queueSize : ℕ)    -- log warning with queue depth, no sleep
  | noSleep                             -- fps = 0 path: timing block skipped
  deriving Repr, DecidableEq

/-- The `if desired_delay > 0` timing block at the end of each cycle, given
the elapsed cycle time and the current queue depth. -/
def frameTiming (fps elapsed : ℚ) (queueSize : ℕ) : TimingAction :=
  if desired_delay fps > 0 then
    let actual_delay := desired_delay fps - elapsed
    if actual_delay < 0 then .warnBackpressure queueSize
    else .sleepFor actual_delay
  else .noSleep

/-- Seconds actually slept by a timing action. -/
def sleepAmount : TimingAction → ℚ
  | .sleepFor d => d
  | .warnBackpressure _ => 0
  | .noSleep => 0

/-! ## Worker loop (src/stream/threads.py lines 56-81)

    while not control.exit_all_threads:
        try:
            work = q.get(timeout=1)
            try:
                fn(work)
            except Exception as e:
                logger.error(...)
            finally:
                q.task_done()
        except Empty:
            continue

The loop is modelled over a finite schedule: each entry holds the value of
`control.exit_all_threads` observed at the top of the iteration and the
result of `q.get(timeout=1)` (an item, or the `Empty` timeout).  The
externally supplied action `fn` either returns or raises. -/

inductive ActionResult where
  | ok
  | raised (msg : String)
  deriving Repr, DecidableEq

inductive Poll (α : Type) where
  | empty              -- q.get timed out with queue.Empty
  | item (a : α)       -- q.get returned a work item
  deriving Repr, DecidableEq

/-- Record of one processed item: the item, whether `q.task_done()` was
called for it, and whether an exception from `fn` was caught and logged. -/
structure ProcessedItem (α : Type) where
  work : α
  doneMarked : Bool
  errorLogged : Bool
  deriving Repr, DecidableEq

/-- One `q.get` iteration body: run `fn` on the item inside try/except/finally.
An exception from `fn` is caught and logged; `task_done` runs in `finally`
either way. -/
def workerProcess {α : Type} (fn : α → ActionResult) (a : α) : ProcessedItem α :=
  match fn a with
  | .ok => ⟨a, true, false⟩
  | .raised _ => ⟨a, true, true⟩

/-- `worker_loop` over a finite schedule of iterations.  Each schedule entry
is `(exitFlag, poll)`: the flag observed by `while not control.exit_all_threads`
and the outcome of `q.get(timeout=1)`.  Returns the list of processed-item
records, in order.  The loop exits only when the flag is observed true. -/
def worker_loop {α : Type} (fn : α → ActionResult) :
    List (Bool × Poll α) → List (ProcessedItem α)
  | [] => []
  | (exitFlag, poll) :: rest =>
    if exitFlag then []
    else
      match poll with
      | .empty => worker_loop fn rest
      | .item a => workerProcess fn a :: worker_loop fn rest

/-- The work items offered by a schedule (those iterations whose poll
returned an item), in order. -/
def scheduleItems {α : Type} : List (Bool × Poll α) → List α
  | [] => []
  | (_, Poll.empty) :: rest => scheduleItems rest
  | (_, Poll.item a) :: rest => a :: scheduleItems rest

/-- Whether a modelled Python call raised (is an `Except.error`). -/
def raisesError {ε α : Type} : Except ε α → Bool
  | .error _ => true
  | .ok _ => false

/-! ### Helper lemmas -/

/-- Python `round` returns an integer within 1/2 of its argument. -/
lemma pyRound_bound (q : ℚ) : |(pyRound q : ℚ) - q| ≤ 1/2 := by
  unfold pyRound
  have h1 := Int.floor_le q
  have h2 := Int.lt_floor_add_one q
  split_ifs with ha hb hc <;> rw [abs_le] <;> push_cast <;> constructor <;> linarith

/-- `round` of an integer plus 4/7 rounds up. -/
lemma pyRound_int_add_four_sevenths (m : ℤ) : pyRound ((m : ℚ) + 4/7) = m + 1 := by
  unfold pyRound
  have hf : ⌊(m : ℚ) + 4/7⌋ = m := by
    rw [Int.floor_int_add]
    norm_num
  rw [hf]
  norm_num

/-- One grab at native rate 30 and target 7, from remainder r/100: the
number of consumed frames is `round(23/7 + r/100) + 1` and the stored
remainder is exactly `(r + 329 - 100·round(23/7 + r/100))/100`: the
`round(·, 2)` quantisation of the carry adds a fixed bias of 3/700 per
grab relative to the exact carry. -/
lemma fileGrab_30_7_step (r : ℤ) :
    fileGrab ⟨30, 7, (r : ℚ)/100⟩
      = ((pyRound (23/7 + (r:ℚ)/100)).toNat + 1,
         ⟨30, 7, ((r + 329 - 100 * pyRound (23/7 + (r:ℚ)/100) : ℤ) : ℚ)/100⟩) := by
  have hdrop : (30:ℚ)/7 - 1 + (r:ℚ)/100 = 23/7 + (r:ℚ)/100 := by ring
  unfold fileGrab
  rw [if_pos (by norm_num : ((⟨30, 7, (r : ℚ)/100⟩ : FileGrabberState).fps_target > 0
    ∧ (⟨30, 7, (r : ℚ)/100⟩ : FileGrabberState).fps_target
        < (⟨30, 7, (r : ℚ)/100⟩ : FileGrabberState).fps_source))]
  show ((pyRound ((30:ℚ)/7 - 1 + (r:ℚ)/100)).toNat + 1,
      FileGrabberState.mk 30 7 (roundTo2 ((30:ℚ)/7 - 1 + (r:ℚ)/100
        - pyRound ((30:ℚ)/7 - 1 + (r:ℚ)/100)))) = _
  rw [hdrop]
  refine Prod.ext rfl ?_
  show FileGrabberState.mk 30 7 _ = FileGrabberState.mk 30 7 _
  congr 1
  unfold roundTo2
  have key : 100 * (23/7 + (r:ℚ)/100 - (pyRound (23/7 + (r:ℚ)/100) : ℚ))
      = ((r + 328 - 100 * pyRound (23/7 + (r:ℚ)/100) : ℤ) : ℚ) + 4/7 := by
    push_cast
    ring
  rw [key, pyRound_int_add_four_sevenths]
  push_cast
  ring

/-- Invariant of the 30→7 decimation run: after k grabs the remainder is
r/100 for an integer r with |r| ≤ 50, and the total number of consumed
frames satisfies `100·total = 429·k − r`. -/
lemma fileGrab_30_7_invariant (k : ℕ) :
    ∃ r : ℤ, -50 ≤ r ∧ r ≤ 50
      ∧ fileGrabIter (fileGrabberInit 30 7) k = ⟨30, 7, (r : ℚ)/100⟩
      ∧ 100 * (fileGrabTotal (fileGrabberInit 30 7) k : ℤ) = 429 * k - r := by
  induction k with
  | zero =>
    refine ⟨0, by norm_num, by norm_num, ?_, by simp [fileGrabTotal]⟩
    show fileGrabberInit 30 7 = _
    unfold fileGrabberInit
    norm_num
  | succ k ih =>
    obtain ⟨r, hr1, hr2, hiter, htot⟩ := ih
    have hstep := fileGrab_30_7_step r
    have hbound := pyRound_bound (23/7 + (r:ℚ)/100)
    rw [abs_le] at hbound
    set n := pyRound (23/7 + (r:ℚ)/100) with hn
    have hrlo : (-50 : ℚ) ≤ (r : ℚ) := by exact_mod_cast hr1
    have hrhi : (r : ℚ) ≤ 50 := by exact_mod_cast hr2
    have hn0 : (0:ℚ) < (n : ℚ) := by linarith
    have hn0' : 0 ≤ n := by exact_mod_cast hn0.le
    have hq : ((r + 329 - 100 * n : ℤ) : ℚ)
        = 100 * ((23/7 + (r:ℚ)/100) - (n : ℚ)) + 3/7 := by
      push_cast
      ring
    refine ⟨r + 329 - 100 * n, ?_, ?_, ?_, ?_⟩
    · have : (-50 : ℚ) ≤ ((r + 329 - 100 * n : ℤ) : ℚ) := by rw [hq]; linarith
      exact_mod_cast this
    · have h51 : ((r + 329 - 100 * n : ℤ) : ℚ) < 51 := by rw [hq]; linarith
      have : (r + 329 - 100 * n : ℤ) < 51 := by exact_mod_cast h51
      omega
    · show fileGrabIter _ (k+1) = _
      unfold fileGrabIter
      rw [hiter, hstep]
    · show (100 : ℤ) * ((fileGrabTotal (fileGrabberInit 30 7) k
          + (fileGrab (fileGrabIter (fileGrabberInit 30 7) k)).1 : ℕ) : ℤ) = _
      rw [hiter, hstep]
      push_cast [Int.toNat_of_nonneg hn0']
      linarith

/-- Python `int()` truncation agrees with the floor on non-negative values. -/
lemma pyInt_of_nonneg (q : ℚ) (h : 0 ≤ q) : pyInt q = ⌊q⌋ := by
  unfold pyInt
  rw [if_pos h]

/-- A slice with bounds inside the axis has its nominal length. -/
lemma sliceLen_eq (a b : ℤ) (n : ℕ) (hab : a ≤ b) (hbn : b ≤ n) :
    sliceLen a b n = (b - a).toNat := by
  unfold sliceLen
  rw [min_eq_left hbn, min_eq_left (hab.trans hbn)]

/-- The try/except/finally body keeps the item and always marks it done. -/
lemma workerProcess_work {α : Type} (fn : α → ActionResult) (a : α) :
    (workerProcess fn a).work = a ∧ (workerProcess fn a).doneMarked = true := by
  cases hfn : fn a <;> simp [workerProcess, hfn]

/-- The sum of two floors is at most the floor of the sum. -/
lemma floor_add_floor_le (a b : ℚ) : ⌊a⌋ + ⌊b⌋ ≤ ⌊a + b⌋ := by
  refine Int.le_floor.mpr ?_
  push_cast
  have := Int.floor_le a
  have := Int.floor_le b
  linarith

/-- Over any run of 100·m grabs at native rate 30 and target 7 the grabber
consumes exactly 429·m file frames. -/
lemma fileGrab_30_7_total_mul (m : ℕ) :
    fileGrabTotal (fileGrabberInit 30 7) (100 * m) = 429 * m := by
  obtain ⟨r, hr1, hr2, _, htot⟩ := fileGrab_30_7_invariant (100 * m)
  have hr0 : r = 429 * (100 * m : ℕ) - 100 * (fileGrabTotal (fileGrabberInit 30 7) (100 * m) : ℤ) := by
    linarith
  have : (100 : ℤ) ∣ r := by
    refine ⟨429 * m - (fileGrabTotal (fileGrabberInit 30 7) (100 * m) : ℤ), ?_⟩
    rw [hr0]
    push_cast
    ring
  obtain ⟨c, hc⟩ := this
  have hc0 : c = 0 := by omega
  have : (100 : ℤ) * (fileGrabTotal (fileGrabberInit 30 7) (100 * m) : ℤ)
      = 100 * (429 * m) := by
    subst hc hc0
    push_cast at htot ⊢
    linarith
  have := mul_left_cancel₀ (by norm_num : (100:ℤ) ≠ 0) this
  exact_mod_cast this

end Stream

namespace Stream

/-! ### Claims -/

/-- C1: in every motion-gated capture cycle, the frame is accepted (enqueued)
iff, in priority order, motion is detected now (in which case the motion
timer is reset to the cycle instant), or the time since the last detected
motion is strictly below the post-motion window, or the time since the last
forwarded frame strictly exceeds the max silence interval; otherwise it is
rejected (the last-forwarded timestamp is updated exactly when the frame is
enqueued). -/
theorem gateStep_accept_iff (pm mi : ℚ) (s : GateState) (now : ℚ) (motionNow : Bool) :
    ((gateStep pm mi s now motionNow).1 = true
      ↔ (motionNow = true ∨ now - s.motionStart < pm ∨ now - s.lastFrameTime > mi))
    ∧ (gateStep pm mi s now motionNow).2.motionStart
        = (if motionNow then now else s.motionStart)
    ∧ (gateStep pm mi s now motionNow).2.lastFrameTime
        = (if (gateStep pm mi s now motionNow).1 = true then now else s.lastFrameTime) := by
  refine ⟨?_, ?_, ?_⟩
  · simp only [gateStep]
    cases motionNow <;> simp
  · simp only [gateStep]
  · simp only [gateStep]

/-- C1 witness: concrete instantiation of `gateStep_accept_iff` — with
post-motion window 1 and max interval 5, a no-motion frame 3 s after the last
motion and 2 s after the last forwarded frame is rejected. -/
theorem gateStep_accept_iff_witness :
    (gateStep 1 5 ⟨0, 1⟩ 3 false).1 = false :=
  by
    have h := (gateStep_accept_iff 1 5 ⟨0, 1⟩ 3 false).1
    by_contra hc
    have := h.mp (by simpa using hc)
    norm_num at this

/-- C2 counterexample: with `post_motion_window = 1` and
`max_silence_interval = 5`, after a motion event at t = 0 (state
`motion_start = 0`, `last_frame_time = 0`) a no-motion frame evaluated at
exactly t = 5.0 is rejected, because the heartbeat condition
`time_since_last_frame > max_frame_interval` is strict — the claim says it
is accepted as a heartbeat. -/
theorem gateStep_heartbeat_boundary_rejected :
    (gateStep 1 5 ⟨0, 0⟩ 5 false).1 = false := by
  norm_num [gateStep]

/-- C2 (amended): with `post_motion_window = 1` and `max_silence_interval = 5`
and a single motion event at t = 0 (state `motion_start = 0`,
`last_frame_time = 0`), a no-motion frame evaluated at time t is accepted for
all t ∈ [0, 1), rejected for all t ∈ [1, 5] — including the boundary t = 5.0 —
and accepted as a heartbeat exactly for t > 5. -/
theorem gateStep_motion_scenario (t : ℚ) :
    (0 ≤ t → t < 1 → (gateStep 1 5 ⟨0, 0⟩ t false).1 = true)
    ∧ (1 ≤ t → t ≤ 5 → (gateStep 1 5 ⟨0, 0⟩ t false).1 = false)
    ∧ (5 < t → (gateStep 1 5 ⟨0, 0⟩ t false).1 = true) := by
  simp only [gateStep]
  norm_num
  exact ⟨fun h0 h1 => by simp [h1], fun h1 h5 => ⟨h1, h5⟩, fun h5 => Or.inr h5⟩

/-- C2 witness: concrete instantiations of `gateStep_motion_scenario` at
t = 1/2 (accepted, post-motion), t = 5 (rejected) and t = 11/2 (accepted,
heartbeat). -/
theorem gateStep_motion_scenario_witness :
    (gateStep 1 5 ⟨0, 0⟩ (1/2) false).1 = true
    ∧ (gateStep 1 5 ⟨0, 0⟩ 5 false).1 = false
    ∧ (gateStep 1 5 ⟨0, 0⟩ (11/2) false).1 = true :=
  ⟨(gateStep_motion_scenario (1/2)).1 (by norm_num) (by norm_num),
   (gateStep_motion_scenario 5).2.1 (by norm_num) (by norm_num),
   (gateStep_motion_scenario (11/2)).2.2 (by norm_num)⟩

/-- C3 counterexample: starting `FileStreamFrameGrabber` at a native rate of
30 and a target of 7, 100 consecutive `grab()` calls consume exactly 429
file frames and return the grabber to its initial state (remainder 0), so
the long-run average accepted-frame spacing is exactly 429/100 = 4.29 frames
— and 429/100 ≠ 30/7: quantising the carried remainder with `round(·, 2)`
introduces a systematic drift of 3/700 frames per grab, so the average does
not equal `fps_source/fps_target` and does not converge to 30/7. -/
theorem fileGrab_30_7_average_not_30_7 :
    fileGrabTotal (fileGrabberInit 30 7) 100 = 429
    ∧ (429 : ℚ) / 100 ≠ 30 / 7 := by
  refine ⟨?_, by norm_num⟩
  have h := fileGrab_30_7_total_mul 1
  simpa using h

/-- C3 (amended): whenever `0 < fps_target < fps_source`, each `grab()`
skips `round(fps_source/fps_target - 1 + carry)` frames and stores the new
carry rounded to two decimal places (`round(·, 2)`); because of that
quantisation, for a native rate of 30 and a target of 7 every run of 100·m
grabs consumes exactly 429·m file frames, and the total consumed after any
k grabs is within 1/2 frame of 4.29·k — so the long-run average spacing is
exactly 4.29 frames, not 30/7. -/
theorem fileGrab_decimation (s : FileGrabberState) (k m : ℕ)
    (h1 : 0 < s.fps_target) (h2 : s.fps_target < s.fps_source) :
    (fileGrab s).1
      = (pyRound (s.fps_source / s.fps_target - 1 + s.remainder)).toNat + 1
    ∧ (fileGrab s).2.remainder
      = roundTo2 (s.fps_source / s.fps_target - 1 + s.remainder
          - pyRound (s.fps_source / s.fps_target - 1 + s.remainder))
    ∧ fileGrabTotal (fileGrabberInit 30 7) (100 * m) = 429 * m
    ∧ |(fileGrabTotal (fileGrabberInit 30 7) k : ℚ) - (429/100) * k| ≤ 1/2 := by
  refine ⟨?_, ?_, fileGrab_30_7_total_mul m, ?_⟩
  · simp [fileGrab, h1, h2]
  · simp [fileGrab, h1, h2]
  · obtain ⟨r, hr1, hr2, _, htot⟩ := fileGrab_30_7_invariant k
    have hrlo : (-50 : ℚ) ≤ (r : ℚ) := by exact_mod_cast hr1
    have hrhi : (r : ℚ) ≤ 50 := by exact_mod_cast hr2
    have htotq : 100 * (fileGrabTotal (fileGrabberInit 30 7) k : ℚ) = 429 * k - r := by
      exact_mod_cast htot
    rw [abs_le]
    constructor <;> nlinarith [htotq]

/-- C3 witness: concrete instantiation of `fileGrab_decimation` — the first
grab at native rate 30 and target 7 skips `round(30/7 - 1) = 3` frames
(consuming 4) and stores carry `round(30/7 - 4, 2) = 0.29`, and 200 grabs
consume exactly 858 = 429·2 frames. -/
theorem fileGrab_decimation_witness :
    (fileGrab (fileGrabberInit 30 7)).1 = 4
    ∧ (fileGrab (fileGrabberInit 30 7)).2.remainder = 29 / 100
    ∧ fileGrabTotal (fileGrabberInit 30 7) 200 = 858 := by
  have h := fileGrab_decimation (fileGrabberInit 30 7) 0 2
    (by norm_num [fileGrabberInit]) (by norm_num [fileGrabberInit])
  have hpr : pyRound ((fileGrabberInit 30 7).fps_source / (fileGrabberInit 30 7).fps_target
      - 1 + (fileGrabberInit 30 7).remainder) = 3 := by
    norm_num [fileGrabberInit, pyRound]
  refine ⟨?_, ?_, ?_⟩
  · rw [h.1, hpr]
    rfl
  · rw [h.2.1, hpr]
    norm_num [fileGrabberInit, roundTo2, pyRound]
  · have := h.2.2.1
    norm_num at this
    exact this

/-- C4: evaluation of the capture loop's grab-failure handling at the
failing input.  A `None` frame or a `GrabError` is logged and followed by a
0.1 s backoff with nothing enqueued, as the claim says — but a read failure
signalled by `RuntimeWarning`, which is how the repository's file, device
and directory grabbers report a transient failed read (contradicting their
own docstrings, which say the read "may return None"), escapes the loop's
`except GrabError` handler and terminates the capture loop. -/
theorem handleGrab_transient_failure :
    handleGrab .noneFrame = .backoffContinue (1/10) true false
    ∧ handleGrab .grabError = .backoffContinue (1/10) true false
    ∧ handleGrab .runtimeWarning = .loopTerminated :=
  ⟨rfl, rfl, rfl⟩

/-- C5: `parse_crop_string` (modelled after `float()` conversion, on the
parsed numbers) returns the tuple (x, y, w, h) exactly when the input is a
list of four numbers with each in [0, 1], x + w ≤ 1, y + h ≤ 1 and
w·h > 0, and raises `ValueError` for every input violating any of these
constraints. -/
theorem parse_crop_numbers_correct (numbers : List ℚ) (x y w h : ℚ) :
    parse_crop_numbers numbers = .ok (x, y, w, h)
      ↔ numbers = [x, y, w, h]
        ∧ 0 ≤ x ∧ x ≤ 1 ∧ 0 ≤ y ∧ y ≤ 1 ∧ 0 ≤ w ∧ w ≤ 1 ∧ 0 ≤ h ∧ h ≤ 1
        ∧ x + w ≤ 1 ∧ y + h ≤ 1 ∧ 0 < w * h := by
  constructor
  · intro hp
    rcases numbers with _ | ⟨a, numbers⟩
    · exact (Except.noConfusion hp)
    rcases numbers with _ | ⟨b, numbers⟩
    · exact (Except.noConfusion hp)
    rcases numbers with _ | ⟨c, numbers⟩
    · exact (Except.noConfusion hp)
    rcases numbers with _ | ⟨d, numbers⟩
    · exact (Except.noConfusion hp)
    rcases numbers with _ | ⟨e, numbers⟩
    · simp only [parse_crop_numbers] at hp
      split_ifs at hp with h1 h2 h3 h4 h5 h6 h7
      injection hp with hp
      obtain ⟨ha, hb, hc, hd⟩ : a = x ∧ b = y ∧ c = w ∧ d = h := by
        simpa [Prod.ext_iff] using hp
      subst ha hb hc hd
      push_neg at h1 h2 h3 h4 h5 h6
      refine ⟨rfl, h1.1, h1.2, h2.1, h2.2, h3.1, h3.2, h4.1, h4.2, h5, h6, ?_⟩
      exact lt_of_le_of_ne (mul_nonneg h3.1 h4.1) (Ne.symm h7)
    · exact (Except.noConfusion hp)
  · rintro ⟨hnum, hx0, hx1, hy0, hy1, hw0, hw1, hh0, hh1, hxw, hyh, hwh⟩
    subst hnum
    simp only [parse_crop_numbers]
    split_ifs with h1 h2 h3 h4 h5 h6 h7
    · rcases h1 with hbad | hbad <;> linarith
    · rcases h2 with hbad | hbad <;> linarith
    · rcases h3 with hbad | hbad <;> linarith
    · rcases h4 with hbad | hbad <;> linarith
    · linarith
    · linarith
    · linarith
    · rfl

/-- C5 witness: concrete instantiation of `parse_crop_numbers_correct` — the
valid crop "0.25,0.25,0.5,0.5" parses to (0.25, 0.25, 0.5, 0.5). -/
theorem parse_crop_numbers_correct_witness :
    parse_crop_numbers [1/4, 1/4, 1/2, 1/2] = .ok (1/4, 1/4, 1/2, 1/2) :=
  (parse_crop_numbers_correct [1/4, 1/4, 1/2, 1/2] (1/4) (1/4) (1/2) (1/2)).mpr
    (by norm_num)

/-- C6 counterexample: on a 10×10×3 frame with the valid crop region
(0, 0, 1/4, 1/4), `crop_frame` returns a 2×2 frame, while the claim's size
(h·H, w·W) would be (2.5, 2.5): the actual size is the floor ⌊w·W⌋ = 2, and
2 ≠ (1/4)·10. -/
theorem crop_frame_fractional_region_size :
    crop_frame ⟨[10, 10, 3]⟩ (0, 0, 1/4, 1/4) = .ok ⟨[2, 2, 3]⟩
    ∧ ((2 : ℚ) ≠ (1/4) * 10) := by
  constructor
  · norm_num [crop_frame, pyInt, sliceLen]
    rfl
  · norm_num

/-- C6 (amended): for every frame of height H, width W with a channel axis
and every valid crop tuple (x, y, w, h) — components in [0, 1], x + w ≤ 1,
y + h ≤ 1 — `crop_frame` returns a frame of size (⌊h·H⌋, ⌊w·W⌋) (equal to
(h·H, w·W) exactly when those products are integers). -/
theorem crop_frame_size (H W c : ℕ) (x y w h : ℚ)
    (hx0 : 0 ≤ x) (hy0 : 0 ≤ y) (hw0 : 0 ≤ w) (hh0 : 0 ≤ h)
    (hxw : x + w ≤ 1) (hyh : y + h ≤ 1) :
    crop_frame ⟨[H, W, c]⟩ (x, y, w, h)
      = .ok ⟨[(pyInt (h * H)).toNat, (pyInt (w * W)).toNat, c]⟩ := by
  have hHq : (0:ℚ) ≤ (H:ℚ) := by positivity
  have hWq : (0:ℚ) ≤ (W:ℚ) := by positivity
  have hy1 : (0:ℤ) ≤ ⌊(H:ℚ) * y⌋ := Int.floor_nonneg.mpr (by positivity)
  have hh1 : (0:ℤ) ≤ ⌊(H:ℚ) * h⌋ := Int.floor_nonneg.mpr (by positivity)
  have hx1 : (0:ℤ) ≤ ⌊(W:ℚ) * x⌋ := Int.floor_nonneg.mpr (by positivity)
  have hw1 : (0:ℤ) ≤ ⌊(W:ℚ) * w⌋ := Int.floor_nonneg.mpr (by positivity)
  have hyH : ⌊(H:ℚ) * y⌋ + ⌊(H:ℚ) * h⌋ ≤ (H : ℤ) := by
    calc ⌊(H:ℚ) * y⌋ + ⌊(H:ℚ) * h⌋ ≤ ⌊(H:ℚ) * y + (H:ℚ) * h⌋ := floor_add_floor_le _ _
    _ ≤ ⌊(H:ℚ)⌋ := Int.floor_le_floor (by nlinarith)
    _ = (H : ℤ) := Int.floor_natCast H
  have hxW : ⌊(W:ℚ) * x⌋ + ⌊(W:ℚ) * w⌋ ≤ (W : ℤ) := by
    calc ⌊(W:ℚ) * x⌋ + ⌊(W:ℚ) * w⌋ ≤ ⌊(W:ℚ) * x + (W:ℚ) * w⌋ := floor_add_floor_le _ _
    _ ≤ ⌊(W:ℚ)⌋ := Int.floor_le_floor (by nlinarith)
    _ = (W : ℤ) := Int.floor_natCast W
  have e1 : crop_frame ⟨[H, W, c]⟩ (x, y, w, h)
      = .ok ⟨[sliceLen (pyInt ((H:ℚ) * y)) (pyInt ((H:ℚ) * y) + pyInt ((H:ℚ) * h)) H,
              sliceLen (pyInt ((W:ℚ) * x)) (pyInt ((W:ℚ) * x) + pyInt ((W:ℚ) * w)) W,
              c]⟩ := rfl
  rw [e1,
    pyInt_of_nonneg ((H:ℚ) * y) (by positivity),
    pyInt_of_nonneg ((H:ℚ) * h) (by positivity),
    pyInt_of_nonneg ((W:ℚ) * x) (by positivity),
    pyInt_of_nonneg ((W:ℚ) * w) (by positivity),
    pyInt_of_nonneg (h * (H:ℚ)) (by positivity),
    pyInt_of_nonneg (w * (W:ℚ)) (by positivity),
    sliceLen_eq _ _ _ (by omega) (by omega),
    sliceLen_eq _ _ _ (by omega) (by omega)]
  simp [mul_comm]

/-- C6 witness: concrete instantiation of `crop_frame_size` — the repository
test's centre crop (0.25, 0.25, 0.5, 0.5) of a 100×200×3 frame yields a
50×100×3 frame. -/
theorem crop_frame_size_witness :
    crop_frame ⟨[100, 200, 3]⟩ (1/4, 1/4, 1/2, 1/2) = .ok ⟨[50, 100, 3]⟩ := by
  have h := crop_frame_size 100 200 3 (1/4) (1/4) (1/2) (1/2)
    (by norm_num) (by norm_num) (by norm_num) (by norm_num) (by norm_num) (by norm_num)
  rw [h]
  norm_num [pyInt]
  omega

/-- C7: with a positive target fps the end-of-cycle timing block sleeps
exactly max(0, 1/fps − elapsed); it emits the backpressure warning — which
carries the current queue depth — exactly when the elapsed time strictly
exceeds the 1/fps budget (and then does not sleep); with fps = 0 the block
is skipped entirely, so the loop never sleeps between cycles. -/
theorem frameTiming_correct (fps elapsed : ℚ) (qsize : ℕ) :
    (0 < fps →
      sleepAmount (frameTiming fps elapsed qsize) = max 0 (1 / fps - elapsed)
      ∧ (frameTiming fps elapsed qsize = .warnBackpressure qsize ↔ 1 / fps < elapsed))
    ∧ (fps = 0 → frameTiming fps elapsed qsize = .noSleep) := by
  constructor
  · intro hfps
    have hd : desired_delay fps = 1 / fps := by simp [desired_delay, hfps]
    have hdpos : 0 < desired_delay fps := by
      rw [hd]
      positivity
    unfold frameTiming
    rw [if_pos hdpos, hd]
    by_cases hc : 1 / fps - elapsed < 0
    · rw [if_pos hc]
      refine ⟨?_, ?_⟩
      · show (0:ℚ) = max 0 (1 / fps - elapsed)
        rw [max_eq_left hc.le]
      · simp only [true_iff]
        linarith
    · rw [if_neg hc]
      push_neg at hc
      refine ⟨?_, ?_⟩
      · show 1 / fps - elapsed = max 0 (1 / fps - elapsed)
        rw [max_eq_right hc]
      · constructor
        · intro hbad
          exact absurd hbad (by simp)
        · intro hlt
          linarith
  · intro h0
    unfold frameTiming
    rw [if_neg]
    simp [desired_delay, h0]

/-- C7 witness: concrete instantiations of `frameTiming_correct` — at
fps = 2 with 1/4 s elapsed the loop sleeps 1/4 s; at fps = 2 with 3 s
elapsed it warns (with the queue depth) instead of sleeping; at fps = 0 it
never sleeps. -/
theorem frameTiming_correct_witness :
    sleepAmount (frameTiming 2 (1/4) 0) = 1/4
    ∧ frameTiming 2 3 7 = .warnBackpressure 7
    ∧ frameTiming 0 3 5 = .noSleep := by
  refine ⟨?_, ?_, (frameTiming_correct 0 3 5).2 rfl⟩
  · have h := ((frameTiming_correct 2 (1/4) 0).1 (by norm_num)).1
    rw [h]
    norm_num
  · exact ((frameTiming_correct 2 3 7).1 (by norm_num)).2.mpr (by norm_num)

/-- C8: over any schedule of worker iterations in which the shutdown flag
is never observed set, `worker_loop` processes every polled item exactly
once and in order — regardless of whether the externally supplied action
returns or raises — marks every item done (`task_done` runs in `finally`),
and each processed record is exactly the try/except/finally processing of
its item (an exception is caught and logged, never propagated): an action
exception never terminates the worker loop. -/
theorem worker_loop_isolates_failures {α : Type} (fn : α → ActionResult)
    (sched : List (Bool × Poll α)) (hflags : ∀ p ∈ sched, p.1 = false) :
    (worker_loop fn sched).map ProcessedItem.work = scheduleItems sched
    ∧ (∀ r ∈ worker_loop fn sched, r.doneMarked = true)
    ∧ (∀ r ∈ worker_loop fn sched, r = workerProcess fn r.work) := by
  induction sched with
  | nil => exact ⟨rfl, by simp [worker_loop], by simp [worker_loop]⟩
  | cons p rest ih =>
    obtain ⟨flag, poll⟩ := p
    have hflag : flag = false := hflags (flag, poll) (List.mem_cons_self _ _)
    subst hflag
    have ih' := ih fun q hq => hflags q (List.mem_cons_of_mem _ hq)
    cases poll with
    | empty =>
      have hred : worker_loop fn ((false, Poll.empty) :: rest) = worker_loop fn rest := rfl
      have hsch : scheduleItems ((false, Poll.empty (α := α)) :: rest)
          = scheduleItems rest := rfl
      rw [hred, hsch]
      exact ih'
    | item a =>
      have hred : worker_loop fn ((false, Poll.item a) :: rest)
          = workerProcess fn a :: worker_loop fn rest := rfl
      have hsch : scheduleItems ((false, Poll.item a) :: rest)
          = a :: scheduleItems rest := rfl
      refine ⟨?_, ?_, ?_⟩
      · rw [hred, hsch, List.map_cons, ih'.1, (workerProcess_work fn a).1]
      · intro r hr
        rw [hred] at hr
        rcases List.mem_cons.mp hr with h | h
        · rw [h]
          exact (workerProcess_work fn a).2
        · exact ih'.2.1 r h
      · intro r hr
        rw [hred] at hr
        rcases List.mem_cons.mp hr with h | h
        · rw [h, (workerProcess_work fn a).1]
        · exact ih'.2.2 r h

/-- C8 witness: concrete instantiation of `worker_loop_isolates_failures` —
with an action that always raises, a three-iteration schedule offering items
1 and 2 still delivers both items, in order. -/
theorem worker_loop_isolates_failures_witness :
    (worker_loop (fun _ : ℕ => ActionResult.raised "submit failed")
        [(false, Poll.item 1), (false, Poll.empty), (false, Poll.item 2)]).map
      ProcessedItem.work
      = scheduleItems [(false, Poll.item 1), (false, Poll.empty), (false, Poll.item 2)] :=
  (worker_loop_isolates_failures (fun _ : ℕ => ActionResult.raised "submit failed")
    [(false, Poll.item 1), (false, Poll.empty), (false, Poll.item 2)] (by decide)).1

/-- C9: for every 3-channel frame with positive dimensions H×W:
with both resize targets zero `resize_if_needed` returns the frame
unchanged; with only the width target positive the output is
width×⌊H·width/W⌋, and with only the height target positive it is
⌊W·height/H⌋×height — in both cases the missing dimension is the floor of
the exact proportional value, so the source aspect ratio is preserved to
within integer rounding. -/
theorem resize_if_needed_correct (H W c : ℕ) (width height : ℤ)
    (hH : 0 < H) (hW : 0 < W) :
    (width = 0 ∧ height = 0 → resize_if_needed ⟨[H, W, c]⟩ width height = .ok ⟨[H, W, c]⟩)
    ∧ (0 < width → height = 0 →
        resize_if_needed ⟨[H, W, c]⟩ width height
          = .ok ⟨[(pyInt ((H : ℚ) * width / W)).toNat, width.toNat, c]⟩
        ∧ (pyInt ((H : ℚ) * width / W) : ℚ) * W ≤ (H : ℚ) * width
        ∧ (H : ℚ) * width < ((pyInt ((H : ℚ) * width / W) : ℚ) + 1) * W)
    ∧ (width = 0 → 0 < height →
        resize_if_needed ⟨[H, W, c]⟩ width height
          = .ok ⟨[height.toNat, (pyInt ((W : ℚ) * height / H)).toNat, c]⟩
        ∧ (pyInt ((W : ℚ) * height / H) : ℚ) * H ≤ (W : ℚ) * height
        ∧ (W : ℚ) * height < ((pyInt ((W : ℚ) * height / H) : ℚ) + 1) * H) := by
  have hHq : (0:ℚ) < (H:ℚ) := by positivity
  have hWq : (0:ℚ) < (W:ℚ) := by positivity
  refine ⟨?_, ?_, ?_⟩
  · rintro ⟨h1, h2⟩
    subst h1 h2
    unfold resize_if_needed
    rw [if_pos ⟨rfl, rfl⟩]
  · intro hwpos hz
    subst hz
    have hwq : (0:ℚ) < (width:ℚ) := by exact_mod_cast hwpos
    have harg : (H:ℚ) * ((0:ℤ) : ℚ) / (H:ℚ) = 0 := by norm_num
    have e1 : resize_if_needed ⟨[H, W, c]⟩ width 0
        = .ok ⟨[(pyInt ((H:ℚ) * (((width:ℤ):ℚ) / (W:ℚ)))).toNat,
                (if width > 0 then width else pyInt ((W:ℚ) * (((0:ℤ):ℚ) / (H:ℚ)))).toNat,
                c]⟩ := by
      unfold resize_if_needed
      rw [if_neg (by rintro ⟨h, -⟩; omega)]
      simp only [show ¬((0:ℤ) > 0) by omega, if_false]
    rw [e1, if_pos hwpos]
    have harg2 : (H:ℚ) * (((width:ℤ):ℚ) / (W:ℚ)) = (H : ℚ) * width / W := by
      ring
    rw [harg2]
    have hnn : (0:ℚ) ≤ (H : ℚ) * width / W := by positivity
    rw [pyInt_of_nonneg _ hnn]
    have hfl := Int.floor_le ((H : ℚ) * width / W)
    have hfu := Int.lt_floor_add_one ((H : ℚ) * width / W)
    refine ⟨rfl, ?_, ?_⟩
    · calc (⌊(H : ℚ) * width / W⌋ : ℚ) * W ≤ ((H : ℚ) * width / W) * W := by
            exact mul_le_mul_of_nonneg_right hfl hWq.le
      _ = (H : ℚ) * width := by field_simp
    · calc (H : ℚ) * width = ((H : ℚ) * width / W) * W := by field_simp
      _ < ((⌊(H : ℚ) * width / W⌋ : ℚ) + 1) * W := by
            exact mul_lt_mul_of_pos_right (by linarith) hWq
  · intro hz hhpos
    subst hz
    have hhq : (0:ℚ) < (height:ℚ) := by exact_mod_cast hhpos
    have e1 : resize_if_needed ⟨[H, W, c]⟩ 0 height
        = .ok ⟨[(if height > 0 then height else pyInt ((H:ℚ) * (((0:ℤ):ℚ) / (W:ℚ)))).toNat,
                (pyInt ((W:ℚ) * (((height:ℤ):ℚ) / (H:ℚ)))).toNat,
                c]⟩ := by
      unfold resize_if_needed
      rw [if_neg (by rintro ⟨-, h⟩; omega)]
      simp only [show ¬((0:ℤ) > 0) by omega, if_false]
    rw [e1, if_pos hhpos]
    have harg2 : (W:ℚ) * (((height:ℤ):ℚ) / (H:ℚ)) = (W : ℚ) * height / H := by
      ring
    rw [harg2]
    have hnn : (0:ℚ) ≤ (W : ℚ) * height / H := by positivity
    rw [pyInt_of_nonneg _ hnn]
    have hfl := Int.floor_le ((W : ℚ) * height / H)
    have hfu := Int.lt_floor_add_one ((W : ℚ) * height / H)
    refine ⟨rfl, ?_, ?_⟩
    · calc (⌊(W : ℚ) * height / H⌋ : ℚ) * H ≤ ((W : ℚ) * height / H) * H := by
            exact mul_le_mul_of_nonneg_right hfl hHq.le
      _ = (W : ℚ) * height := by field_simp
    · calc (W : ℚ) * height = ((W : ℚ) * height / H) * H := by field_simp
      _ < ((⌊(W : ℚ) * height / H⌋ : ℚ) + 1) * H := by
            exact mul_lt_mul_of_pos_right (by linarith) hHq

/-- C9 witness: concrete instantiations of `resize_if_needed_correct` — the
repository test's cases: a 100×200×3 frame resized with width 50 only
becomes 25×50×3, and with both targets zero it is unchanged. -/
theorem resize_if_needed_correct_witness :
    resize_if_needed ⟨[100, 200, 3]⟩ 50 0 = .ok ⟨[25, 50, 3]⟩
    ∧ resize_if_needed ⟨[100, 200, 3]⟩ 0 0 = .ok ⟨[100, 200, 3]⟩ := by
  have h := resize_if_needed_correct 100 200 3 50 0 (by norm_num) (by norm_num)
  have h0 := resize_if_needed_correct 100 200 3 0 0 (by norm_num) (by norm_num)
  refine ⟨?_, h0.1 ⟨rfl, rfl⟩⟩
  rw [(h.2.1 (by norm_num) rfl).1]
  norm_num [pyInt]
  omega

/-- C10: `crop_frame` and `resize_if_needed` (outside the both-targets-zero
early return) destructure the frame shape into exactly three components on
entry, so they raise on every 2-dimensional frame — in particular on the
grayscale frames `DirectoryFrameGrabber.grab` produces by reading with
`cv2.IMREAD_GRAYSCALE` — while `resize_if_needed` with both targets zero
returns such a frame untouched, and a 3-dimensional shape never trips the
destructuring in `crop_frame`: a channel axis is a precondition for these
operations not to raise. -/
theorem shape_unpack_precondition (hgt wdt : ℕ) (r : ℚ × ℚ × ℚ × ℚ)
    (width height : ℤ) (f : Frame) :
    raisesError (crop_frame (directoryGrabFrame hgt wdt) r) = true
    ∧ (¬(width = 0 ∧ height = 0) →
        raisesError (resize_if_needed (directoryGrabFrame hgt wdt) width height) = true)
    ∧ resize_if_needed (directoryGrabFrame hgt wdt) 0 0 = .ok (directoryGrabFrame hgt wdt)
    ∧ (f.shape.length = 3 → raisesError (crop_frame f r) = false) := by
  refine ⟨rfl, ?_, ?_, ?_⟩
  · intro hne
    unfold resize_if_needed
    rw [if_neg hne]
    rfl
  · unfold resize_if_needed
    rw [if_pos ⟨rfl, rfl⟩]
  · intro hlen
    obtain ⟨a, b, c, habc⟩ := List.length_eq_three.mp hlen
    obtain ⟨shape⟩ := f
    simp only at habc
    subst habc
    rfl

/-- C10 witness: concrete instantiation of `shape_unpack_precondition` — on
a 480×640 grayscale directory frame, `crop_frame` raises and so does
`resize_if_needed` with a width target, while `crop_frame` on a 480×640×3
colour frame does not raise. -/
theorem shape_unpack_precondition_witness :
    raisesError (crop_frame (directoryGrabFrame 480 640) (0, 0, 1/2, 1/2)) = true
    ∧ raisesError (resize_if_needed (directoryGrabFrame 480 640) 50 0) = true
    ∧ raisesError (crop_frame ⟨[480, 640, 3]⟩ (0, 0, 1/2, 1/2)) = false := by
  have h := shape_unpack_precondition 480 640 (0, 0, 1/2, 1/2) 50 0 ⟨[480, 640, 3]⟩
  exact ⟨h.1, h.2.1 (by norm_num), h.2.2.2 rfl⟩

end Stream

